import Mathlib

/-!
Shallow embedding of the `access-denied` care-management simulation
(`src/simulation/*.py`) and proofs about its specification claims.

Real numbers of the Python source (floats) are embedded as rationals `ℚ`,
Python ints as `ℤ` or `ℕ`, Python `None` as `Option`, and code that can
raise (`ZeroDivisionError` on `/`) as `Except String`.  Randomness
(`numpy.random.Generator`) is embedded as an abstract state type threaded
explicitly through every sampling call (structure `RngModel` below), so
every definition is an ordinary deterministic function of its inputs and
of the random state.
-/

namespace AccessSim

/-- `np.clip(x, lo, hi)`: equivalent to `min(max(x, lo), hi)`. -/
def npClip (x lo hi : ℚ) : ℚ := min (max x lo) hi

/-- Python division `a / b`: raises `ZeroDivisionError` when `b = 0`. -/
def pyDiv (a b : ℚ) : Except String ℚ :=
  if b = 0 then Except.error "division by zero" else Except.ok (a / b)

/-- `dict.get(k, 0.0)` on an association list (insertion order kept). -/
def lookupD (l : List (ℕ × ℚ)) (k : ℕ) : ℚ :=
  match l.lookup k with
  | some v => v
  | none => 0

/-- Sum of a list of rationals. -/
def listSum (l : List ℚ) : ℚ := l.foldr (· + ·) 0

theorem npClip_nonneg (x lo hi : ℚ) (hlo : 0 ≤ lo) (hhi : 0 ≤ hi) :
    0 ≤ npClip x lo hi :=
  le_min (le_trans hlo (le_max_right x lo)) hhi

theorem npClip_le (x lo hi : ℚ) : npClip x lo hi ≤ hi := min_le_right _ _

/-! ## Tracks and payment table (`src/simulation/tracks.py`) -/

/-- The four ACCESS clinical tracks (`class Track(Enum)`). -/
inductive Track
  | eckm
  | ckm
  | msk
  | bh
deriving DecidableEq, Repr

/-- Payment structure for a clinical track (`@dataclass TrackPayment`). -/
structure TrackPayment where
  track : Track
  initial_payment : ℚ
  followon_payment : Option ℚ
  rural_addon : ℚ
  has_followon : Bool
deriving DecidableEq, Repr

/-- The static `TRACK_PAYMENTS` table. -/
def TRACK_PAYMENTS : Track → TrackPayment
  | .eckm => ⟨.eckm, 360, some 180, 15, true⟩
  | .ckm => ⟨.ckm, 420, some 210, 15, true⟩
  | .msk => ⟨.msk, 180, none, 0, false⟩
  | .bh => ⟨.bh, 180, some 90, 0, true⟩

/-- Enumeration order of `Track` (`for track in Track`). -/
def trackList : List Track := [.eckm, .ckm, .msk, .bh]

/-- `get_track_payment(track, enrollment_year, current_year, is_rural)`. -/
def get_track_payment (track : Track) (enrollment_year current_year : ℤ)
    (h_rural : Bool) : ℚ :=
  let payment_info := TRACK_PAYMENTS track
  let years_enrolled := current_year - enrollment_year
  if years_enrolled = 0 then
    let base := payment_info.initial_payment
    if h_rural ∧ payment_info.rural_addon > 0 then base + payment_info.rural_addon * 12
    else base
  else
    if ¬ payment_info.has_followon then 0
    else
      let base := (payment_info.followon_payment).getD 0
      if h_rural ∧ payment_info.rural_addon > 0 then base + payment_info.rural_addon * 12
      else base

/-! ## Patient model (`src/simulation/patient.py`) -/

/-- Patient status literal type. -/
inductive PStatus
  | never_enrolled
  | enrolled
  | dropped
deriving DecidableEq, Repr

/-- A patient (`@dataclass Patient`).

The fields up to `year_dropped` are exactly the fields declared in the
source dataclass.  The remaining fields (`enrolled_track`,
`track_enrollment_year`, `has_diabetes`, `is_rural` and the five target
flags) are referenced by `policy.py`, `metrics.py` and `environment.py`
but are not declared on the source dataclass.
Modelled from the spec: `enrolled_track` is the payment track assigned at
enrollment, `track_target_flags` are independent booleans, one per
required target of the assigned track, `has_diabetes` marks applicability
of the HbA1c target, and `is_rural` selects the rural payment add-on. -/
structure Patient where
  id : ℕ
  true_complexity : ℕ
  age : ℤ
  num_chronic_conditions : ℤ
  has_ckd : ℕ
  has_copd : ℕ
  has_hf : ℕ
  has_depression : ℕ
  baseline_bp : ℚ
  baseline_a1c : ℚ
  engagement_score : ℚ
  prior_no_show_rate : ℚ
  device_sync_rate : ℚ
  housing_stability : ℚ
  broadband_score : ℚ
  english_proficiency : ℚ
  sdoh_score : ℚ
  digital_literacy : ℚ
  status : PStatus := .never_enrolled
  initial_outcome : ℚ := 0
  current_outcome : ℚ := 0
  year_enrolled : Option ℤ := none
  year_dropped : Option ℤ := none
  enrolled_track : Option Track := none
  track_enrollment_year : Option ℤ := none
  has_diabetes : Bool := false
  is_rural : Bool := false
  bp_controlled : Bool := false
  hba1c_controlled : Bool := false
  kidney_stable : Bool := false
  functional_improved : Bool := false
  phq9_improved : Bool := false
  eligible_tracks : List Track := []

/-- Target flag of a patient by target name, per `TRACK_TARGETS`. -/
def targetFlag (p : Patient) : String → Bool
  | "bp_controlled" => p.bp_controlled
  | "hba1c_controlled" => p.hba1c_controlled
  | "kidney_stable" => p.kidney_stable
  | "functional_improved" => p.functional_improved
  | "phq9_improved" => p.phq9_improved
  | _ => false

/-- The `TRACK_TARGETS` table: names of the targets each track requires. -/
def TRACK_TARGETS : Track → List String
  | .eckm => ["bp_controlled", "hba1c_controlled", "kidney_stable"]
  | .ckm => ["bp_controlled", "hba1c_controlled", "kidney_stable"]
  | .msk => ["functional_improved"]
  | .bh => ["phq9_improved"]

/-- `Patient.meets_track_targets()`.
Modelled from the spec: true iff every target required by the patient's
assigned track is met (`track_target_flags` ALL true); the method is
referenced by `policy.py`/`metrics.py` but not declared on the source
dataclass.  A patient without an assigned track meets no track's targets. -/
def meets_track_targets (p : Patient) : Bool :=
  match p.enrolled_track with
  | none => false
  | some t => (TRACK_TARGETS t).all (targetFlag p)

/-- `Patient.get_eligible_tracks()`.
Modelled from the spec: the set of tracks for which the individual is
eligible; the concrete per-track eligibility predicate is not part of the
core sources, so it is carried as patient data. -/
def get_eligible_tracks (p : Patient) : List Track := p.eligible_tracks

/-! ## Configuration (`src/simulation/config.py`) -/

/-- `@dataclass SimConfig`: plain record of every tunable constant. -/
structure SimConfig where
  population_size : ℤ
  complex_patient_ratio : ℚ
  target_panel_size : ℤ
  panel_growth_per_year : ℤ
  num_years : ℕ
  random_seed : Option ℤ
  withhold_rate : ℚ
  outcome_attainment_threshold : ℚ
  min_withhold_return : ℚ
  cost_per_patient : ℚ
  default_min_engagement : ℚ
  default_max_conditions : ℤ
  default_min_digital_literacy : ℚ
  enable_ai_optimization : Bool
  optimization_iterations : ℕ
  easy_improvement_prob : ℚ
  complex_improvement_prob : ℚ
  easy_improvement_min : ℚ
  easy_improvement_max : ℚ
  complex_improvement_min : ℚ
  complex_improvement_max : ℚ
  bp_control_prob_easy : ℚ
  bp_control_prob_complex : ℚ
  hba1c_control_prob_easy : ℚ
  hba1c_control_prob_complex : ℚ
  kidney_stable_prob_easy : ℚ
  kidney_stable_prob_complex : ℚ
  functional_improved_prob_easy : ℚ
  functional_improved_prob_complex : ℚ
  phq9_improved_prob_easy : ℚ
  phq9_improved_prob_complex : ℚ
  base_dropout_rate : ℚ
  low_engagement_dropout_modifier : ℚ
  low_literacy_dropout_modifier : ℚ
  high_complexity_dropout_modifier : ℚ

/-- The default field values of `SimConfig`. -/
def defaultSimConfig : SimConfig where
  population_size := 100000
  complex_patient_ratio := 1/5
  target_panel_size := 5000
  panel_growth_per_year := 1000
  num_years := 10
  random_seed := some 42
  withhold_rate := 1/2
  outcome_attainment_threshold := 1/2
  min_withhold_return := 1/2
  cost_per_patient := 240
  default_min_engagement := 3/10
  default_max_conditions := 5
  default_min_digital_literacy := 1/5
  enable_ai_optimization := true
  optimization_iterations := 20
  easy_improvement_prob := 3/5
  complex_improvement_prob := 1/5
  easy_improvement_min := 1/10
  easy_improvement_max := 1/5
  complex_improvement_min := 1/50
  complex_improvement_max := 2/25
  bp_control_prob_easy := 7/10
  bp_control_prob_complex := 3/10
  hba1c_control_prob_easy := 13/20
  hba1c_control_prob_complex := 1/4
  kidney_stable_prob_easy := 4/5
  kidney_stable_prob_complex := 1/2
  functional_improved_prob_easy := 3/4
  functional_improved_prob_complex := 7/20
  phq9_improved_prob_easy := 3/5
  phq9_improved_prob_complex := 1/4
  base_dropout_rate := 1/20
  low_engagement_dropout_modifier := 1/10
  low_literacy_dropout_modifier := 1/20
  high_complexity_dropout_modifier := 2/25

/-- The `@dataclass`-generated `SimConfig.__init__`: it assigns each field
from the given keyword arguments and performs no validation whatsoever.
Typed in `Except` so the spec's fail-fast claim is statable. -/
def simConfigInit (args : SimConfig) : Except String SimConfig :=
  Except.ok args

/-! ## Random source model

`numpy.random.Generator` is embedded as an abstract state type `RS`
together with the family of primitive sampling operations the source
calls.  Each operation deterministically maps a state to a value and a
successor state; `default_rng` builds the initial state from the seed.
The concrete distribution algorithms live inside numpy and are outside
this repository, so they stay abstract here; all repository logic is
embedded concretely on top of these primitives. -/
structure RngModel (RS : Type) where
  default_rng : Option ℤ → RS
  random : RS → ℚ × RS
  uniform : ℚ → ℚ → RS → ℚ × RS
  normal : ℚ → ℚ → RS → ℚ × RS
  beta : ℚ → ℚ → RS → ℚ × RS
  integers : ℤ → ℤ → RS → ℤ × RS
  shuffle : List Patient → RS → List Patient × RS

/-! ## Environment (`src/simulation/environment.py`) -/

/-- `simulate_outcome_change(patient, config, rng)`: one year of outcome
drift for one patient, branching on enrollment status and hidden
complexity exactly as the source does. -/
def simulate_outcome_change {RS : Type} (M : RngModel RS) (p : Patient)
    (config : SimConfig) (s : RS) : ℚ × RS :=
  if p.status = .enrolled then
    let base_prob :=
      if p.true_complexity = 0 then config.easy_improvement_prob
      else config.complex_improvement_prob
    let improvement_min :=
      if p.true_complexity = 0 then config.easy_improvement_min
      else config.complex_improvement_min
    let improvement_max :=
      if p.true_complexity = 0 then config.easy_improvement_max
      else config.complex_improvement_max
    let engagement_modifier := (p.engagement_score - 1/2) * (1/5)
    let literacy_modifier := (p.digital_literacy - 1/2) * (1/10)
    let final_prob :=
      npClip (base_prob + engagement_modifier + literacy_modifier) (1/20) (9/10)
    let (u, s1) := M.random s
    if u < final_prob then
      let (magnitude, s2) := M.uniform improvement_min improvement_max s1
      (magnitude * (4/5 + 2/5 * p.engagement_score), s2)
    else
      M.uniform (-(1/50)) (1/50) s1
  else if p.status = .dropped then
    if p.true_complexity = 0 then M.uniform (-(1/50)) 0 s
    else M.uniform (-(1/25)) (-(1/100)) s
  else
    if p.true_complexity = 0 then M.uniform (-(1/100)) (1/100) s
    else M.uniform (-(3/100)) 0 s

/-- The local `dropout_prob` computed by `simulate_spontaneous_dropout`
for an enrolled patient: base rate plus the low-engagement, low-literacy
and high-complexity modifiers, clipped to `[0.0, 0.6]`. -/
def spontaneousDropoutProb (p : Patient) (config : SimConfig) : ℚ :=
  let prob := config.base_dropout_rate
  let prob :=
    if p.engagement_score < 3/10 then prob + config.low_engagement_dropout_modifier
    else prob
  let prob :=
    if p.digital_literacy < 3/10 then prob + config.low_literacy_dropout_modifier
    else prob
  let prob :=
    if p.true_complexity = 1 then prob + config.high_complexity_dropout_modifier
    else prob
  npClip prob 0 (3/5)

/-- `simulate_spontaneous_dropout(patient, config, rng)`: returns `False`
immediately for a non-enrolled patient, otherwise draws once against the
clipped dropout probability. -/
def simulate_spontaneous_dropout {RS : Type} (M : RngModel RS) (p : Patient)
    (config : SimConfig) (s : RS) : Bool × RS :=
  if p.status ≠ .enrolled then (false, s)
  else
    let (u, s1) := M.random s
    (decide (u < spontaneousDropoutProb p config), s1)

/-! ## Policy (`src/simulation/policy.py`) -/

/-- `@dataclass Policy` with its default field values. -/
structure Policy where
  min_engagement : ℚ := 3/10
  max_num_conditions : ℤ := 5
  min_digital_literacy : ℚ := 1/5
  min_sdoh_score : ℚ := 1/5
  drop_if_not_meeting_targets : Bool := true
  eckm_preference : ℚ := 1/2
  ckm_preference : ℚ := 3/5
  msk_preference : ℚ := 7/10
  bh_preference : ℚ := 9/10
  drop_threshold : ℚ := 1/50
deriving DecidableEq, Repr

/-- The all-defaults policy `Policy()`. -/
def defaultPolicy : Policy := {}

/-- `Policy.should_enroll(patient)`: the AND of the five enrollment
gates, with early-return structure as in the source. -/
def should_enroll (policy : Policy) (p : Patient) : Bool :=
  if p.status ≠ .never_enrolled then false
  else if p.engagement_score < policy.min_engagement then false
  else if p.num_chronic_conditions > policy.max_num_conditions then false
  else if p.digital_literacy < policy.min_digital_literacy then false
  else if p.sdoh_score < policy.min_sdoh_score then false
  else if (get_eligible_tracks p).isEmpty then false
  else true

/-- `Policy.should_drop(patient, outcome_delta)`: returns `False` for a
non-enrolled patient; otherwise first the track-targets check (only when
`drop_if_not_meeting_targets` is set), then — with no `else` in the
source — the legacy threshold check, then `False`. -/
def should_drop (policy : Policy) (p : Patient) (outcome_delta : ℚ) : Bool :=
  if p.status ≠ .enrolled then false
  else if policy.drop_if_not_meeting_targets ∧ ¬ meets_track_targets p then true
  else if outcome_delta < policy.drop_threshold then true
  else false

/-- `Policy.mutate(rng, mutation_scale)`: a fresh policy with every
continuous threshold perturbed by a normal draw and clipped, the discrete
condition cap perturbed with probability 0.3, and the drop-mode flag
flipped with probability 0.1 — draws in exactly the source order. -/
def policyMutate {RS : Type} (M : RngModel RS) (policy : Policy)
    (mutation_scale : ℚ) (s : RS) : Policy × RS :=
  let (n1, s) := M.normal 0 (mutation_scale * (3/10)) s
  let new_min_engagement := npClip (policy.min_engagement + n1) 0 1
  let (n2, s) := M.normal 0 (mutation_scale * (3/10)) s
  let new_min_digital_literacy := npClip (policy.min_digital_literacy + n2) 0 1
  let (n3, s) := M.normal 0 (mutation_scale * (3/10)) s
  let new_min_sdoh_score := npClip (policy.min_sdoh_score + n3) 0 1
  let (n4, s) := M.normal 0 (mutation_scale * (1/20)) s
  let new_drop_threshold := npClip (policy.drop_threshold + n4) (-(1/10)) (3/20)
  let (u1, s) := M.random s
  let (new_max_num_conditions, s) :=
    if u1 < 3/10 then
      let (d, s) := M.integers (-1) 2 s
      (min (max (policy.max_num_conditions + d) 1) 10, s)
    else (policy.max_num_conditions, s)
  let (n5, s) := M.normal 0 (mutation_scale * (1/5)) s
  let new_eckm_preference := npClip (policy.eckm_preference + n5) (1/10) 1
  let (n6, s) := M.normal 0 (mutation_scale * (1/5)) s
  let new_ckm_preference := npClip (policy.ckm_preference + n6) (1/10) 1
  let (n7, s) := M.normal 0 (mutation_scale * (1/5)) s
  let new_msk_preference := npClip (policy.msk_preference + n7) (1/10) 1
  let (n8, s) := M.normal 0 (mutation_scale * (1/5)) s
  let new_bh_preference := npClip (policy.bh_preference + n8) (1/10) 1
  let (u2, s) := M.random s
  let new_flag :=
    if u2 < 1/10 then ¬ policy.drop_if_not_meeting_targets
    else policy.drop_if_not_meeting_targets
  ({ min_engagement := new_min_engagement
     max_num_conditions := new_max_num_conditions
     min_digital_literacy := new_min_digital_literacy
     min_sdoh_score := new_min_sdoh_score
     drop_if_not_meeting_targets := new_flag
     eckm_preference := new_eckm_preference
     ckm_preference := new_ckm_preference
     msk_preference := new_msk_preference
     bh_preference := new_bh_preference
     drop_threshold := new_drop_threshold }, s)

/-! ## Optimizer (`optimize_policy` in `src/simulation/policy.py`)

The evaluation function is `Except`-valued because the evaluation used by
`run_simulation` can in principle propagate a Python exception; the
mutation operator is abstracted as `mutateFn i best s`, instantiated with
`policyMutate` and the decaying `mutationScale` by the simulator. -/

/-- The decaying perturbation scale `0.2 * (1 - i / num_iterations) + 0.05`
computed in iteration `i` of `optimize_policy`. -/
def mutationScale (i num_iterations : ℕ) : ℚ :=
  1/5 * (1 - (i : ℚ) / (num_iterations : ℚ)) + 1/20

/-- The iteration loop of `optimize_policy`, over the list of remaining
iteration indices, carrying the incumbent policy, its reward, the reward
history and the random state. -/
def optLoop {σ : Type} (evalFn : Policy → Except String ℚ)
    (mutateFn : ℕ → Policy → σ → Policy × σ) :
    List ℕ → Policy → ℚ → List ℚ → σ → Except String (Policy × List ℚ × σ)
  | [], best, _, hist, s => Except.ok (best, hist, s)
  | i :: rest, best, bestR, hist, s =>
    let (candidate, s1) := mutateFn i best s
    match evalFn candidate with
    | Except.error e => Except.error e
    | Except.ok r =>
      if bestR < r then optLoop evalFn mutateFn rest candidate r (hist ++ [r]) s1
      else optLoop evalFn mutateFn rest best bestR (hist ++ [bestR]) s1

/-- `optimize_policy(initial_policy, evaluate_fn, num_iterations, rng)`:
greedy stochastic hill-climbing; returns the best policy and the reward
history (the final random state is returned as well since the source
mutates the shared generator). -/
def optimize_policy {σ : Type} (initial_policy : Policy)
    (evalFn : Policy → Except String ℚ) (num_iterations : ℕ)
    (mutateFn : ℕ → Policy → σ → Policy × σ) (s : σ) :
    Except String (Policy × List ℚ × σ) :=
  match evalFn initial_policy with
  | Except.error e => Except.error e
  | Except.ok r0 =>
    optLoop evalFn mutateFn (List.range num_iterations) initial_policy r0 [r0] s

/-- Observer on a run of `optimize_policy`: the sequence of candidate
objective values generated during the run (one per iteration), for a
total evaluation function. -/
def candTrace {σ : Type} (f : Policy → ℚ)
    (mutateFn : ℕ → Policy → σ → Policy × σ) :
    List ℕ → Policy → ℚ → σ → List ℚ
  | [], _, _, _ => []
  | i :: rest, best, bestR, s =>
    let (candidate, s1) := mutateFn i best s
    let r := f candidate
    r :: (if bestR < r then candTrace f mutateFn rest candidate r s1
          else candTrace f mutateFn rest best bestR s1)

/-! ## Metrics and reward (`src/simulation/metrics.py`)

Every Python division in this module is embedded through `pyDiv`, so a
`ZeroDivisionError` surfaces as `Except.error`; the guards of the source
(`if not …: return 0.0`) are reproduced verbatim. -/

/-- Number of enrolled patients in a list. -/
def enrolledCount (patients : List Patient) : ℕ :=
  patients.countP (fun p => decide (p.status = .enrolled))

/-- `compute_track_oat(patients, track)`: fraction of the track's
enrolled patients that meet all of the track's targets; `0.0` for an
empty track. -/
def compute_track_oat (patients : List Patient) (track : Track) :
    Except String ℚ :=
  let track_patients := patients.filter
    (fun p => decide (p.status = .enrolled ∧ p.enrolled_track = some track))
  if track_patients.isEmpty then Except.ok 0
  else
    let meeting_targets := track_patients.countP (fun p => meets_track_targets p)
    pyDiv (meeting_targets : ℚ) (track_patients.length : ℚ)

/-- `compute_withhold_recovery(oat, config)`: full recovery at or above
the OAT threshold, otherwise the proportional recovery floored at
`min_withhold_return`. -/
def compute_withhold_recovery (oat : ℚ) (config : SimConfig) :
    Except String ℚ :=
  if config.outcome_attainment_threshold ≤ oat then Except.ok 1
  else
    match pyDiv oat config.outcome_attainment_threshold with
    | Except.error e => Except.error e
    | Except.ok recovery => Except.ok (max recovery config.min_withhold_return)

/-- The dictionary returned alongside the revenue by
`compute_year_reward` (`track_payments` etc. keyed by `Track` rather
than by the enum's string value). -/
structure FinBreakdown where
  base_payment : ℚ
  withhold_amount : ℚ
  withhold_recovered : ℚ
  total_cost : ℚ
  track_payments : List (Track × ℚ)
  track_oats : List (Track × ℚ)
  track_withhold_recovery : List (Track × ℚ)

/-- `defaultdict(float)` update: add `v` at key `t` (insertion order kept). -/
def upsertAdd (l : List (Track × ℚ)) (t : Track) (v : ℚ) : List (Track × ℚ) :=
  match l with
  | [] => [(t, v)]
  | (t0, v0) :: rest =>
    if t0 = t then (t0, v0 + v) :: rest else (t0, v0) :: upsertAdd rest t v

/-- `dict.get(track, 0.0)` on a `Track`-keyed association list. -/
def trackLookupD (l : List (Track × ℚ)) (t : Track) : ℚ :=
  match l.lookup t with
  | some v => v
  | none => 0

/-- `compute_year_reward(patients, year, config)`: the CMS 50/50
withhold revenue and its breakdown; short-circuits to all zeros when no
patient is enrolled.  (`patient.track_enrollment_year or year` follows
Python truthiness: both `None` and `0` fall back to `year`.) -/
def compute_year_reward (patients : List Patient) (year : ℤ)
    (config : SimConfig) : Except String (ℚ × FinBreakdown) := do
  let enrolled := patients.filter (fun p => decide (p.status = .enrolled))
  if enrolled.isEmpty then
    return (0, ⟨0, 0, 0, 0, [], [], []⟩)
  else
    let track_payments := enrolled.foldl (fun acc p =>
      match p.enrolled_track with
      | none => acc
      | some t =>
        let ey : ℤ :=
          match p.track_enrollment_year with
          | none => year
          | some k => if k = 0 then year else k
        upsertAdd acc t (get_track_payment t ey year p.is_rural)) []
    let total_payment := listSum (track_payments.map Prod.snd)
    let base_payment := total_payment * (1 - config.withhold_rate)
    let withhold_amount := total_payment * config.withhold_rate
    let oat_rcv ← trackList.mapM (fun t => do
      let oat ← compute_track_oat patients t
      let rcv ← compute_withhold_recovery oat config
      return ((t, oat), (t, rcv)))
    let track_oats := oat_rcv.map Prod.fst
    let track_withhold_recovery := oat_rcv.map Prod.snd
    let withhold_recovered := track_payments.foldl (fun acc pay =>
      acc + pay.2 * config.withhold_rate *
        trackLookupD track_withhold_recovery pay.1) 0
    let total_cost := config.cost_per_patient * (enrolled.length : ℚ)
    let revenue := base_payment + withhold_recovered - total_cost
    return (revenue, ⟨base_payment, withhold_amount, withhold_recovered,
      total_cost, track_payments, track_oats, track_withhold_recovery⟩)

/-- `@dataclass YearlyMetrics`: the read-only per-year snapshot. -/
structure YearlyMetrics where
  year : ℤ
  enrolled_count : ℕ
  dropped_count : ℕ
  never_enrolled_count : ℕ
  total_count : ℕ
  enrolled_complex_count : ℕ
  enrolled_easy_count : ℕ
  dropped_complex_count : ℕ
  dropped_easy_count : ℕ
  enrolled_avg_outcome : ℚ
  dropped_avg_outcome : ℚ
  never_enrolled_avg_outcome : ℚ
  total_avg_outcome : ℚ
  enrolled_avg_improvement : ℚ
  dropped_avg_improvement : ℚ
  never_enrolled_avg_improvement : ℚ
  total_avg_improvement : ℚ
  reward : ℚ
  base_payment : ℚ
  withhold_amount : ℚ
  withhold_recovered : ℚ
  total_cost : ℚ
  eckm_enrolled : ℕ
  ckm_enrolled : ℕ
  msk_enrolled : ℕ
  bh_enrolled : ℕ
  eckm_oat : ℚ
  ckm_oat : ℚ
  msk_oat : ℚ
  bh_oat : ℚ
  eckm_withhold_pct : ℚ
  ckm_withhold_pct : ℚ
  msk_withhold_pct : ℚ
  bh_withhold_pct : ℚ
  eckm_pct_complex : ℚ
  ckm_pct_complex : ℚ
  msk_pct_complex : ℚ
  bh_pct_complex : ℚ
  pct_complex_enrolled : ℚ
  pct_complex_dropped : ℚ
  pct_complex_never_enrolled : ℚ
  strokes_enrolled : ℚ
  strokes_dropped : ℚ
  strokes_never_enrolled : ℚ
  strokes_total : ℚ

/-- Local `safe_mean_outcome(patient_list)` of `compute_yearly_metrics`. -/
def safe_mean_outcome (patient_list : List Patient) : Except String ℚ :=
  if patient_list.isEmpty then Except.ok 0
  else pyDiv (listSum (patient_list.map Patient.current_outcome))
    (patient_list.length : ℚ)

/-- Local `safe_mean_delta(patient_list)` of `compute_yearly_metrics`. -/
def safe_mean_delta (outcome_deltas : List (ℕ × ℚ))
    (patient_list : List Patient) : Except String ℚ :=
  if patient_list.isEmpty then Except.ok 0
  else pyDiv (listSum (patient_list.map (fun p => lookupD outcome_deltas p.id)))
    (patient_list.length : ℚ)

/-- Local `track_pct_complex(track_patients)` of `compute_yearly_metrics`. -/
def track_pct_complex (track_patients : List Patient) : Except String ℚ :=
  if track_patients.isEmpty then Except.ok 0
  else
    match pyDiv ((track_patients.countP (fun p => decide (p.true_complexity = 1))) : ℚ)
        (track_patients.length : ℚ) with
    | Except.error e => Except.error e
    | Except.ok q => Except.ok (q * 100)

/-- Local `estimate_strokes(patient_list)` of `compute_yearly_metrics`. -/
def estimate_strokes (patient_list : List Patient) : ℚ :=
  if patient_list.isEmpty then 0
  else patient_list.foldl (fun acc p => acc + max 0 (1 - p.current_outcome) * (1/100)) 0

/-- A guarded percentage `a / b * 100 if b > 0 else 0` as written for the
three legacy complexity percentages. -/
def guardedPct (a b : ℕ) : Except String ℚ :=
  if b > 0 then
    match pyDiv (a : ℚ) (b : ℚ) with
    | Except.error e => Except.error e
    | Except.ok q => Except.ok (q * 100)
  else Except.ok 0

/-- `compute_yearly_metrics(patients, year, outcome_deltas, config)`. -/
def compute_yearly_metrics (patients : List Patient) (year : ℤ)
    (outcome_deltas : List (ℕ × ℚ)) (config : SimConfig) :
    Except String YearlyMetrics := do
  let enrolled := patients.filter (fun p => decide (p.status = .enrolled))
  let dropped := patients.filter (fun p => decide (p.status = .dropped))
  let never_enrolled := patients.filter (fun p => decide (p.status = .never_enrolled))
  let enrolled_count := enrolled.length
  let dropped_count := dropped.length
  let never_enrolled_count := never_enrolled.length
  let total_count := patients.length
  let enrolled_complex := enrolled.filter (fun p => decide (p.true_complexity = 1))
  let enrolled_easy := enrolled.filter (fun p => decide (p.true_complexity = 0))
  let dropped_complex := dropped.filter (fun p => decide (p.true_complexity = 1))
  let dropped_easy := dropped.filter (fun p => decide (p.true_complexity = 0))
  let never_enrolled_complex := never_enrolled.filter (fun p => decide (p.true_complexity = 1))
  let enrolled_avg_outcome ← safe_mean_outcome enrolled
  let dropped_avg_outcome ← safe_mean_outcome dropped
  let never_enrolled_avg_outcome ← safe_mean_outcome never_enrolled
  let total_avg_outcome ← safe_mean_outcome patients
  let enrolled_avg_improvement ← safe_mean_delta outcome_deltas enrolled
  let dropped_avg_improvement ← safe_mean_delta outcome_deltas dropped
  let never_enrolled_avg_improvement ← safe_mean_delta outcome_deltas never_enrolled
  let total_avg_improvement ← safe_mean_delta outcome_deltas patients
  let rf ← compute_year_reward patients year config
  let eckm_patients := enrolled.filter (fun p => decide (p.enrolled_track = some .eckm))
  let ckm_patients := enrolled.filter (fun p => decide (p.enrolled_track = some .ckm))
  let msk_patients := enrolled.filter (fun p => decide (p.enrolled_track = some .msk))
  let bh_patients := enrolled.filter (fun p => decide (p.enrolled_track = some .bh))
  let eckm_oat ← compute_track_oat patients .eckm
  let ckm_oat ← compute_track_oat patients .ckm
  let msk_oat ← compute_track_oat patients .msk
  let bh_oat ← compute_track_oat patients .bh
  let eckm_rcv ← compute_withhold_recovery eckm_oat config
  let ckm_rcv ← compute_withhold_recovery ckm_oat config
  let msk_rcv ← compute_withhold_recovery msk_oat config
  let bh_rcv ← compute_withhold_recovery bh_oat config
  let eckm_pct_complex ← track_pct_complex eckm_patients
  let ckm_pct_complex ← track_pct_complex ckm_patients
  let msk_pct_complex ← track_pct_complex msk_patients
  let bh_pct_complex ← track_pct_complex bh_patients
  let pct_complex_enrolled ← guardedPct enrolled_complex.length enrolled_count
  let pct_complex_dropped ← guardedPct dropped_complex.length dropped_count
  let pct_complex_never_enrolled ← guardedPct never_enrolled_complex.length never_enrolled_count
  let strokes_enrolled := estimate_strokes enrolled
  let strokes_dropped := estimate_strokes dropped
  let strokes_never_enrolled := estimate_strokes never_enrolled
  return { year := year
           enrolled_count := enrolled_count
           dropped_count := dropped_count
           never_enrolled_count := never_enrolled_count
           total_count := total_count
           enrolled_complex_count := enrolled_complex.length
           enrolled_easy_count := enrolled_easy.length
           dropped_complex_count := dropped_complex.length
           dropped_easy_count := dropped_easy.length
           enrolled_avg_outcome := enrolled_avg_outcome
           dropped_avg_outcome := dropped_avg_outcome
           never_enrolled_avg_outcome := never_enrolled_avg_outcome
           total_avg_outcome := total_avg_outcome
           enrolled_avg_improvement := enrolled_avg_improvement
           dropped_avg_improvement := dropped_avg_improvement
           never_enrolled_avg_improvement := never_enrolled_avg_improvement
           total_avg_improvement := total_avg_improvement
           reward := rf.1
           base_payment := rf.2.base_payment
           withhold_amount := rf.2.withhold_amount
           withhold_recovered := rf.2.withhold_recovered
           total_cost := rf.2.total_cost
           eckm_enrolled := eckm_patients.length
           ckm_enrolled := ckm_patients.length
           msk_enrolled := msk_patients.length
           bh_enrolled := bh_patients.length
           eckm_oat := eckm_oat
           ckm_oat := ckm_oat
           msk_oat := msk_oat
           bh_oat := bh_oat
           eckm_withhold_pct := eckm_rcv * 100
           ckm_withhold_pct := ckm_rcv * 100
           msk_withhold_pct := msk_rcv * 100
           bh_withhold_pct := bh_rcv * 100
           eckm_pct_complex := eckm_pct_complex
           ckm_pct_complex := ckm_pct_complex
           msk_pct_complex := msk_pct_complex
           bh_pct_complex := bh_pct_complex
           pct_complex_enrolled := pct_complex_enrolled
           pct_complex_dropped := pct_complex_dropped
           pct_complex_never_enrolled := pct_complex_never_enrolled
           strokes_enrolled := strokes_enrolled
           strokes_dropped := strokes_dropped
           strokes_never_enrolled := strokes_never_enrolled
           strokes_total := strokes_enrolled + strokes_dropped + strokes_never_enrolled }

/-! ## Population generation (`src/simulation/patient.py`) -/

/-- One iteration of the generation loop of
`generate_patient_population`: all draws in source order, the clamps, the
four-band initial outcome, and the `Patient(...)` construction.  The
attributes that the source constructor does not set (the spec-modelled
track fields) keep their declared defaults. -/
def generateOnePatient {RS : Type} (M : RngModel RS) (config : SimConfig)
    (i : ℕ) (s : RS) : Patient × RS :=
  let (u0, s) := M.random s
  let is_complex := u0 < SimConfig.complex_patient_ratio config
  let true_complexity : ℕ := if is_complex then 1 else 0
  let (age, s) := if is_complex then M.integers 65 90 s else M.integers 50 75 s
  let (num_conditions, s) := if is_complex then M.integers 3 8 s else M.integers 1 4 s
  let (engagement_score, s) := if is_complex then M.beta 2 5 s else M.beta 5 2 s
  let (digital_literacy, s) := if is_complex then M.beta 2 5 s else M.beta 5 2 s
  let (baseline_bp, s) := if is_complex then M.normal 150 15 s else M.normal 135 10 s
  let (baseline_a1c, s) := if is_complex then M.normal (17/2) (3/2) s else M.normal (36/5) 1 s
  let (housing_stability, s) := if is_complex then M.beta 3 5 s else M.beta 5 2 s
  let (broadband_score, s) := if is_complex then M.beta 3 5 s else M.beta 5 2 s
  let (english_proficiency, s) := if is_complex then M.beta 4 3 s else M.beta 6 2 s
  let (prior_no_show_rate, s) := if is_complex then M.beta 4 3 s else M.beta 2 5 s
  let (device_sync_rate, s) := if is_complex then M.beta 2 4 s else M.beta 5 2 s
  let (sdoh_score, s) := if is_complex then M.beta 2 5 s else M.beta 5 2 s
  let cp : ℚ × ℚ × ℚ × ℚ :=
    if is_complex then (2/5, 1/2, 9/20, 7/20) else (3/20, 1/5, 3/20, 1/5)
  let (c1, s) := M.random s
  let has_ckd : ℕ := if c1 < cp.1 then 1 else 0
  let (c2, s) := M.random s
  let has_copd : ℕ := if c2 < cp.2.1 then 1 else 0
  let (c3, s) := M.random s
  let has_hf : ℕ := if c3 < cp.2.2.1 then 1 else 0
  let (c4, s) := M.random s
  let has_depression : ℕ := if c4 < cp.2.2.2 then 1 else 0
  let engagement_score := npClip engagement_score 0 1
  let digital_literacy := npClip digital_literacy 0 1
  let housing_stability := npClip housing_stability 0 1
  let broadband_score := npClip broadband_score 0 1
  let english_proficiency := npClip english_proficiency 0 1
  let prior_no_show_rate := npClip prior_no_show_rate 0 1
  let device_sync_rate := npClip device_sync_rate 0 1
  let sdoh_score := npClip sdoh_score 0 1
  let baseline_bp := npClip baseline_bp 90 200
  let baseline_a1c := npClip baseline_a1c 5 14
  let (initial_outcome, s) :=
    if baseline_bp < 120 then M.uniform (17/20) (19/20) s
    else if baseline_bp < 140 then M.uniform (3/5) (3/4) s
    else if baseline_bp < 160 then M.uniform (3/10) (1/2) s
    else M.uniform (1/10) (3/10) s
  ({ id := i
     true_complexity := true_complexity
     age := age
     num_chronic_conditions := num_conditions
     has_ckd := has_ckd
     has_copd := has_copd
     has_hf := has_hf
     has_depression := has_depression
     baseline_bp := baseline_bp
     baseline_a1c := baseline_a1c
     engagement_score := engagement_score
     prior_no_show_rate := prior_no_show_rate
     device_sync_rate := device_sync_rate
     housing_stability := housing_stability
     broadband_score := broadband_score
     english_proficiency := english_proficiency
     sdoh_score := sdoh_score
     digital_literacy := digital_literacy
     initial_outcome := initial_outcome
     current_outcome := initial_outcome }, s)

/-- `generate_patient_population(config, rng)`: `population_size`
patients generated in id order (`range` of a negative size is empty,
matching Python). -/
def generate_patient_population {RS : Type} (M : RngModel RS)
    (config : SimConfig) (s : RS) : List Patient × RS :=
  (List.range config.population_size.toNat).foldl
    (fun acc i =>
      let (p, s1) := generateOnePatient M config i acc.2
      (acc.1 ++ [p], s1)) ([], s)

/-! ## Simulator (`src/simulation/simulator.py`) -/

/-- Mark a patient enrolled in the given year (the two in-place
assignments `patient.status = "enrolled"; patient.year_enrolled = year`). -/
def enrollPatient (year : ℤ) (p : Patient) : Patient :=
  { p with status := .enrolled, year_enrolled := some year }

/-- `naive_enroll_initial_panel(patients, config, rng)`: shuffle the
never-enrolled pool and enroll the first `target_panel_size` of it with
`year_enrolled = 0`. -/
def naive_enroll_initial_panel {RS : Type} (M : RngModel RS)
    (patients : List Patient) (config : SimConfig) (s : RS) :
    List Patient × RS :=
  let available := patients.filter (fun p => decide (p.status = .never_enrolled))
  let (shuffled, s1) := M.shuffle available s
  let chosenIds := (shuffled.take config.target_panel_size.toNat).map Patient.id
  (patients.map (fun p => if p.id ∈ chosenIds then enrollPatient 0 p else p), s1)

/-- Loop body of step 1 of `run_single_year`: draw the patient's delta,
add it to `current_outcome`, record it in the delta dict. -/
def outcomeAccum {RS : Type} (M : RngModel RS) (config : SimConfig)
    (acc : List Patient × List (ℕ × ℚ) × RS) (p : Patient) :
    List Patient × List (ℕ × ℚ) × RS :=
  let (delta, s1) := simulate_outcome_change M p config acc.2.2
  (acc.1 ++ [{ p with current_outcome := p.current_outcome + delta }],
   acc.2.1 ++ [(p.id, delta)], s1)

/-- Step 1 of `run_single_year`: apply `simulate_outcome_change` to every
patient in order, adding each delta to `current_outcome` and recording it
in the `outcome_deltas` dict (keyed by patient id). -/
def outcomeStep {RS : Type} (M : RngModel RS) (patients : List Patient)
    (config : SimConfig) (s : RS) : List Patient × List (ℕ × ℚ) × RS :=
  patients.foldl (outcomeAccum M config) ([], [], s)

/-- The inline drop condition of step 2 of `run_single_year`:
`delta < policy.drop_threshold`. -/
def dropDecision (policy : Policy) (delta : ℚ) : Bool :=
  decide (delta < policy.drop_threshold)

/-- The per-patient transition of step 2 of `run_single_year`.  The
source iterates over the enrolled patients in ascending-delta order, but
each drop decision depends only on the patient's own delta
(`outcome_deltas.get(p.id, 0.0)`), so the resulting state is
order-independent and is embedded as a pointwise update. -/
def dropUpdate (policy : Policy) (outcome_deltas : List (ℕ × ℚ)) (year : ℤ)
    (p : Patient) : Patient :=
  if p.status = .enrolled ∧ dropDecision policy (lookupD outcome_deltas p.id) then
    { p with status := .dropped, year_dropped := some year }
  else p

/-- Step 2 of `run_single_year` (lemon-dropping). -/
def dropStep (policy : Policy) (outcome_deltas : List (ℕ × ℚ)) (year : ℤ)
    (patients : List Patient) : List Patient :=
  patients.map (dropUpdate policy outcome_deltas year)

/-- The candidate-ranking proxy of step 3: engagement plus digital
literacy. -/
def desirability (p : Patient) : ℚ := p.engagement_score + p.digital_literacy

/-- Step 3 of `run_single_year` (cherry-picking refill): compute the
year's target panel size, and if the enrolled count is below it, enroll
the most desirable eligible never-enrolled candidates up to the target. -/
def refillStep (patients : List Patient) (policy : Policy)
    (config : SimConfig) (year : ℤ) : List Patient :=
  let target_size : ℤ := config.target_panel_size + year * config.panel_growth_per_year
  let current_enrolled : ℤ := (enrolledCount patients : ℤ)
  let slots_to_fill : ℤ := target_size - current_enrolled
  if 0 < slots_to_fill then
    let candidates := (patients.filter (fun p => should_enroll policy p)).mergeSort
      (fun a b => decide (desirability b ≤ desirability a))
    let chosenIds := (candidates.take slots_to_fill.toNat).map Patient.id
    patients.map (fun p => if p.id ∈ chosenIds then enrollPatient year p else p)
  else patients

/-- `run_single_year(patients, policy, config, year, rng)`: outcome
drift, lemon-dropping, refill; returns the updated patients and the
outcome-delta dict. -/
def run_single_year {RS : Type} (M : RngModel RS) (patients : List Patient)
    (policy : Policy) (config : SimConfig) (year : ℤ) (s : RS) :
    List Patient × List (ℕ × ℚ) × RS :=
  let (updated, outcome_deltas, s1) := outcomeStep M patients config s
  let afterDrop := dropStep policy outcome_deltas year updated
  (refillStep afterDrop policy config year, outcome_deltas, s1)

/-- The local `reset_patients` of `run_simulation`: restore the four
mutable fields touched by a rollout to their pristine generated state. -/
def reset_patients (patients : List Patient) : List Patient :=
  patients.map (fun p =>
    { p with status := .never_enrolled, current_outcome := p.initial_outcome,
             year_enrolled := none, year_dropped := none })

/-- The year loop shared by the optimizer's evaluation (years
`0 … num_years-1`) and the final run (years `1 … num_years`): run each
year and collect its `YearlyMetrics`. -/
def yearLoop {RS : Type} (M : RngModel RS) (config : SimConfig)
    (policy : Policy) :
    List ℤ → List Patient → List YearlyMetrics → RS →
    Except String (List Patient × List YearlyMetrics × RS)
  | [], patients, acc, s => Except.ok (patients, acc, s)
  | y :: rest, patients, acc, s =>
    let (patients1, outcome_deltas, s1) := run_single_year M patients policy config y s
    match compute_yearly_metrics patients1 y outcome_deltas config with
    | Except.error e => Except.error e
    | Except.ok m => yearLoop M config policy rest patients1 (acc ++ [m]) s1

/-- The local `evaluate_policy` closure of `run_simulation`: reset the
shared population, reseed a fresh generator from the config seed, redo
the naive initial enrollment, and sum the yearly rewards over years
`0 … num_years-1`. -/
def evaluate_policy {RS : Type} (M : RngModel RS) (config : SimConfig)
    (base_patients : List Patient) (candidate_policy : Policy) :
    Except String ℚ :=
  let ps := reset_patients base_patients
  let es := M.default_rng config.random_seed
  let (ps1, es1) := naive_enroll_initial_panel M ps config es
  match yearLoop M config candidate_policy
      ((List.range config.num_years).map (fun n => (n : ℤ))) ps1 [] es1 with
  | Except.error e => Except.error e
  | Except.ok (_, ms, _) => Except.ok (listSum (ms.map YearlyMetrics.reward))

/-- `run_simulation(config, policy, enable_ai_optimization)`: optional
policy optimization on the shared population, then the final run — year 0
recorded right after naive enrollment with all-zero deltas, then years
`1 … num_years`.  Returns the metrics sequence, the final policy and the
optimized policy (if any); the pandas `DataFrame` conversion is
presentation only and is not modelled. -/
def run_simulation {RS : Type} (M : RngModel RS) (config : SimConfig)
    (policyArg : Option Policy) (enable_ai_optimizationArg : Option Bool) :
    Except String (List YearlyMetrics × Policy × Option Policy) := do
  let s := M.default_rng config.random_seed
  let policy := policyArg.getD
    { min_engagement := config.default_min_engagement
      max_num_conditions := config.default_max_conditions
      min_digital_literacy := config.default_min_digital_literacy }
  let should_optimize := enable_ai_optimizationArg.getD config.enable_ai_optimization
  let (base_patients, s) := generate_patient_population M config s
  let (policyFinal, optimized_policy, s) ←
    if should_optimize then do
      let r ← optimize_policy policy
        (evaluate_policy M config base_patients)
        config.optimization_iterations
        (fun i q st => policyMutate M q (mutationScale i config.optimization_iterations) st)
        s
      pure (r.1, some r.1, r.2.2)
    else
      pure (policy, (none : Option Policy), s)
  let patients := reset_patients base_patients
  let (patients1, s1) := naive_enroll_initial_panel M patients config s
  let initial_deltas := patients1.map (fun p => (p.id, (0 : ℚ)))
  let m0 ← compute_yearly_metrics patients1 0 initial_deltas config
  let (_, ms, _) ← yearLoop M config policyFinal
    ((List.range config.num_years).map (fun n => (n : ℤ) + 1)) patients1 [] s1
  return ([m0] ++ ms, policyFinal, optimized_policy)

/-! ## Concrete fixtures used by witnesses and counterexamples -/

/-- A concrete patient with favorable observable features. -/
def testPatient : Patient where
  id := 0
  true_complexity := 0
  age := 60
  num_chronic_conditions := 2
  has_ckd := 0
  has_copd := 0
  has_hf := 0
  has_depression := 0
  baseline_bp := 135
  baseline_a1c := 7
  engagement_score := 1
  prior_no_show_rate := 0
  device_sync_rate := 1
  housing_stability := 1
  broadband_score := 1
  english_proficiency := 1
  sdoh_score := 1
  digital_literacy := 1

/-- An enrolled BH-track patient who meets the track's single target. -/
def pMeets : Patient :=
  { testPatient with status := .enrolled, enrolled_track := some .bh,
                     phq9_improved := true }

/-- An enrolled BH-track patient who fails the track's single target. -/
def pFailsTargets : Patient :=
  { testPatient with status := .enrolled, enrolled_track := some .bh,
                     phq9_improved := false }

/-- A trivial deterministic random source over a unit state.  Used only
to instantiate theorems at concrete inputs. -/
def unitRng : RngModel Unit where
  default_rng := fun _ => ()
  random := fun s => (0, s)
  uniform := fun a _ s => (a, s)
  normal := fun mu _ s => (mu, s)
  beta := fun _ _ s => (1/2, s)
  integers := fun lo _ s => (lo, s)
  shuffle := fun l s => (l, s)

/-- A deterministic random source whose `random` draw always succeeds
(returns 0) and whose `uniform` draw always returns the upper end of the
range.  It realizes the most favorable improvement draw of
`simulate_outcome_change`. -/
def maxRng : RngModel Unit where
  default_rng := fun _ => ()
  random := fun s => (0, s)
  uniform := fun _ b s => (b, s)
  normal := fun mu _ s => (mu, s)
  beta := fun _ _ s => (1, s)
  integers := fun lo _ s => (lo, s)
  shuffle := fun l s => (l, s)

/-! ## C2 — `Policy.should_drop` mode structure -/

/-- C2 (counterexample): with the targets mode on
(`drop_if_not_meeting_targets = true`), `should_drop` is NOT `true` iff
the patient fails its track targets: the enrolled patient `pMeets` meets
all of its track's targets, yet `should_drop` returns `true` for it at
outcome delta `-1/2` because the source falls through to the legacy
threshold check.  This refutes the claimed mode exclusivity. -/
theorem C2_counterexample :
    ¬ (should_drop defaultPolicy pMeets (-(1/2)) = true ↔
        meets_track_targets pMeets = false) := by
  have h1 : should_drop defaultPolicy pMeets (-(1/2)) = true := by
    norm_num [should_drop, pMeets, testPatient, defaultPolicy,
      meets_track_targets, TRACK_TARGETS, targetFlag]
  have h2 : meets_track_targets pMeets = true := by
    norm_num [meets_track_targets, pMeets, testPatient, TRACK_TARGETS, targetFlag]
  intro hiff
  have h3 := hiff.mp h1
  rw [h2] at h3
  exact Bool.noConfusion h3

/-- C2 (amended): for every patient, `should_drop` returns `true` iff the
patient is enrolled AND (the targets mode is on and the patient fails its
track targets, OR the outcome delta is below `drop_threshold`); the
legacy threshold check applies in both modes.  For a non-enrolled patient
it returns `false`. -/
theorem C2_should_drop_characterization (policy : Policy) (p : Patient)
    (delta : ℚ) :
    should_drop policy p delta =
      (decide (p.status = .enrolled) &&
        ((policy.drop_if_not_meeting_targets && ! meets_track_targets p) ||
          decide (delta < policy.drop_threshold))) := by
  unfold should_drop
  by_cases h : p.status = .enrolled
  · by_cases hm : policy.drop_if_not_meeting_targets ∧ ¬ meets_track_targets p
    · simp [h, hm]
    · by_cases hd : delta < policy.drop_threshold <;>
        simp_all [Decidable.not_and_iff_or_not]
  · simp [h]

/-! ## C9 — `SimConfig` construction performs no validation -/

/-- An argument record with a negative population size and a
complex-patient fraction outside `[0, 1]`. -/
def invalidConfigArgs : SimConfig :=
  { defaultSimConfig with
      population_size := -5
      complex_patient_ratio := 3/2 }

/-- C9 (counterexample): constructing a `SimConfig` with a negative
population size and a complex-patient fraction outside `[0, 1]` does not
raise: the dataclass constructor stores the values unchanged. -/
theorem C9_counterexample :
    simConfigInit invalidConfigArgs = Except.ok invalidConfigArgs := rfl

/-- C9 (amended): `SimConfig` construction never fails: every argument
record, valid or not, is stored as given, and the values propagate into
the simulation unchecked. -/
theorem C9_no_validation (args : SimConfig) :
    simConfigInit args = Except.ok args := rfl

/-! ## C10 — spontaneous dropout -/

/-- C10: for a non-enrolled patient `simulate_spontaneous_dropout`
returns `false` with the random state untouched (no draw is consumed);
for an enrolled patient the probability used by the single draw is
`spontaneousDropoutProb`, which is clipped into `[0, 0.6]`, so the
per-year spontaneous dropout probability never exceeds `0.6`. -/
theorem C10_spontaneous_dropout {RS : Type} (M : RngModel RS) (p : Patient)
    (config : SimConfig) (s : RS) :
    (p.status ≠ .enrolled → simulate_spontaneous_dropout M p config s = (false, s)) ∧
    (p.status = .enrolled →
      0 ≤ spontaneousDropoutProb p config ∧
      spontaneousDropoutProb p config ≤ 3/5 ∧
      simulate_spontaneous_dropout M p config s =
        (decide ((M.random s).1 < spontaneousDropoutProb p config), (M.random s).2)) := by
  constructor
  · intro h
    simp [simulate_spontaneous_dropout, h]
  · intro h
    refine ⟨npClip_nonneg _ _ _ le_rfl (by norm_num), npClip_le _ _ _, ?_⟩
    simp [simulate_spontaneous_dropout, h, spontaneousDropoutProb]

/-- Witness for C10 at concrete inputs: `testPatient` is never-enrolled
(no randomness consumed), and its enrolled variant draws against the
clipped probability. -/
theorem C10_witness :
    simulate_spontaneous_dropout unitRng testPatient defaultSimConfig () = (false, ()) ∧
    (0 ≤ spontaneousDropoutProb pMeets defaultSimConfig ∧
      spontaneousDropoutProb pMeets defaultSimConfig ≤ 3/5 ∧
      simulate_spontaneous_dropout unitRng pMeets defaultSimConfig () =
        (decide (((unitRng).random ()).1 < spontaneousDropoutProb pMeets defaultSimConfig),
          ((unitRng).random ()).2)) :=
  ⟨(C10_spontaneous_dropout unitRng testPatient defaultSimConfig ()).1 (by decide),
   (C10_spontaneous_dropout unitRng pMeets defaultSimConfig ()).2 rfl⟩

/-! ## C3 — outcome score is not clamped after the yearly update -/

/-- The enrolled easy patient of the C3 failing input: outcome score
`0.95`, maximal engagement and literacy. -/
def pHighOutcome : Patient :=
  { testPatient with status := .enrolled, current_outcome := 19/20 }

/-- C3 (violation at the failing input): in the yearly outcome step the
simulator adds the delta returned by `simulate_outcome_change` to
`current_outcome` without clamping.  For `pHighOutcome` with an
improvement draw at the top of the easy range (`maxRng`), the resulting
outcome score is `1.19 > 1`, leaving the claimed `[0, 1]` range. -/
theorem C3_outcome_leaves_unit_interval :
    ((outcomeStep maxRng [pHighOutcome] defaultSimConfig ()).1.map
        Patient.current_outcome) = [119/100] ∧
    ¬ ((119 : ℚ)/100 ≤ 1) := by
  constructor
  · norm_num [outcomeStep, outcomeAccum, simulate_outcome_change, pHighOutcome,
      testPatient, maxRng, defaultSimConfig, npClip, min_def, max_def]
  · norm_num

/-! ## C4 — withhold recovery at the default configuration -/

/-- C4: at the default configuration (`oat_threshold = 0.50`,
`min_withhold_return = 0.50`), `compute_withhold_recovery` returns `1.0`
for `OAT ≥ 0.50` and `max(OAT / 0.50, 0.50)` otherwise; in particular
`OAT = 0.50 ↦ 1.0` and `OAT = 0.0 ↦ 0.50`, and the recovery is
monotonically non-decreasing in OAT on `[0, 1]`. -/
theorem C4_withhold_recovery_default :
    (∀ oat : ℚ, 0 ≤ oat → oat ≤ 1 →
      compute_withhold_recovery oat defaultSimConfig =
        Except.ok (if 1/2 ≤ oat then 1 else max (oat / (1/2)) (1/2))) ∧
    compute_withhold_recovery (1/2) defaultSimConfig = Except.ok 1 ∧
    compute_withhold_recovery 0 defaultSimConfig = Except.ok (1/2) ∧
    (∀ a b r1 r2 : ℚ, 0 ≤ a → a ≤ b → b ≤ 1 →
      compute_withhold_recovery a defaultSimConfig = Except.ok r1 →
      compute_withhold_recovery b defaultSimConfig = Except.ok r2 →
      r1 ≤ r2) := by
  have key : ∀ oat : ℚ, compute_withhold_recovery oat defaultSimConfig =
      Except.ok (if 1/2 ≤ oat then 1 else max (oat / (1/2)) (1/2)) := by
    intro oat
    unfold compute_withhold_recovery
    by_cases h : (1 : ℚ)/2 ≤ oat
    · rw [if_pos (by simpa [defaultSimConfig] using h), if_pos h]
    · rw [if_neg (by simpa [defaultSimConfig] using h), if_neg h]
      simp [pyDiv, defaultSimConfig]
  refine ⟨fun oat _ _ => key oat, ?_, ?_, ?_⟩
  · rw [key]; norm_num
  · rw [key]; norm_num
  · intro a b r1 r2 ha hab _ h1 h2
    rw [key] at h1 h2
    injection h1 with h1
    injection h2 with h2
    subst h1
    subst h2
    by_cases hA : (1 : ℚ)/2 ≤ a
    · rw [if_pos hA, if_pos (le_trans hA hab)]
    · by_cases hB : (1 : ℚ)/2 ≤ b
      · rw [if_neg hA, if_pos hB]
        refine max_le ?_ (by norm_num)
        rw [div_le_one (by norm_num : (0:ℚ) < 1/2)]
        linarith
      · rw [if_neg hA, if_neg hB]
        exact max_le_max ((div_le_div_iff_of_pos_right (by norm_num)).mpr hab) le_rfl

/-- Witness for C4: the formula at `OAT = 1/4` and the monotonicity
between `OAT = 0` and `OAT = 1/2`. -/
theorem C4_witness :
    compute_withhold_recovery (1/4) defaultSimConfig =
      Except.ok (if (1 : ℚ)/2 ≤ 1/4 then 1 else max ((1/4) / (1/2)) (1/2)) ∧
    (1/2 : ℚ) ≤ 1 :=
  ⟨C4_withhold_recovery_default.1 (1/4) (by norm_num) (by norm_num),
   C4_withhold_recovery_default.2.2.2 0 (1/2) (1/2) 1 le_rfl (by norm_num)
     (by norm_num) C4_withhold_recovery_default.2.2.1
     C4_withhold_recovery_default.2.1⟩

/-! ## C1 — the simulator's inline drop decision vs `Policy.should_drop` -/

/-- Shared helper: the Boolean characterization of `should_drop`. -/
theorem should_drop_eq (policy : Policy) (p : Patient) (delta : ℚ) :
    should_drop policy p delta =
      (decide (p.status = .enrolled) &&
        ((policy.drop_if_not_meeting_targets && ! meets_track_targets p) ||
          decide (delta < policy.drop_threshold))) := by
  unfold should_drop
  by_cases h : p.status = .enrolled
  · by_cases hm : policy.drop_if_not_meeting_targets ∧ ¬ meets_track_targets p
    · simp [h, hm]
    · by_cases hd : delta < policy.drop_threshold <;>
        simp_all [Decidable.not_and_iff_or_not]
  · simp [h]

/-- C1 (counterexample): with the default policy (targets mode on), the
enrolled patient `pFailsTargets` fails its track targets at outcome delta
`1/20 ≥ drop_threshold`; `Policy.should_drop` returns `true` for it, yet
the simulator's inline drop decision in `run_single_year` keeps it
enrolled — so "dropped iff `should_drop`" fails at this input. -/
theorem C1_counterexample :
    ¬ (((dropUpdate defaultPolicy [(0, 1/20)] 3 pFailsTargets).status = .dropped) ↔
        should_drop defaultPolicy pFailsTargets (1/20) = true) := by
  have h1 : (dropUpdate defaultPolicy [(0, 1/20)] 3 pFailsTargets).status = .enrolled := by
    norm_num [dropUpdate, dropDecision, lookupD, List.lookup, pFailsTargets,
      testPatient, defaultPolicy]
  have h2 : should_drop defaultPolicy pFailsTargets (1/20) = true := by
    norm_num [should_drop, pFailsTargets, testPatient, defaultPolicy,
      meets_track_targets, TRACK_TARGETS, targetFlag]
  intro hiff
  have h3 := hiff.mpr h2
  rw [h1] at h3
  exact PStatus.noConfusion h3

/-- C1 (amended): in the yearly drop step an enrolled individual is
transitioned to dropped iff its outcome delta is below
`policy.drop_threshold`; this inline decision coincides with
`Policy.should_drop` whenever `drop_if_not_meeting_targets` is false (and
it diverges in targets mode for patients failing their targets with
delta at or above the threshold, as the counterexample shows). -/
theorem C1_drop_rule (policy : Policy) (outcome_deltas : List (ℕ × ℚ))
    (year : ℤ) (p : Patient) (h : p.status = .enrolled) :
    (((dropUpdate policy outcome_deltas year p).status = .dropped) ↔
      lookupD outcome_deltas p.id < policy.drop_threshold) ∧
    (policy.drop_if_not_meeting_targets = false →
      (((dropUpdate policy outcome_deltas year p).status = .dropped) ↔
        should_drop policy p (lookupD outcome_deltas p.id) = true)) := by
  have hmain : ((dropUpdate policy outcome_deltas year p).status = .dropped) ↔
      lookupD outcome_deltas p.id < policy.drop_threshold := by
    unfold dropUpdate dropDecision
    by_cases hd : lookupD outcome_deltas p.id < policy.drop_threshold
    · simp [h, hd]
    · simp [h, hd]
  refine ⟨hmain, fun hflag => ?_⟩
  rw [should_drop_eq, hflag, h]
  simpa using hmain

/-- Witness for C1 at a concrete input: legacy-mode policy, enrolled
patient, delta `-1` below the threshold. -/
theorem C1_witness :
    (((dropUpdate { defaultPolicy with drop_if_not_meeting_targets := false }
        [(0, -1)] 1 pFailsTargets).status = .dropped) ↔
      lookupD [(0, -1)] pFailsTargets.id <
        Policy.drop_threshold { defaultPolicy with drop_if_not_meeting_targets := false }) ∧
    (((dropUpdate { defaultPolicy with drop_if_not_meeting_targets := false }
        [(0, -1)] 1 pFailsTargets).status = .dropped) ↔
      should_drop { defaultPolicy with drop_if_not_meeting_targets := false }
        pFailsTargets (lookupD [(0, -1)] pFailsTargets.id) = true) := by
  have h := C1_drop_rule { defaultPolicy with drop_if_not_meeting_targets := false }
    [(0, -1)] 1 pFailsTargets rfl
  exact ⟨h.1, h.2 rfl⟩

/-! ## C5 — empty groups and tracks never raise -/

/-- `pure` of the `Except` monad is `Except.ok`. -/
theorem exceptPure_eq_ok {α : Type} (a : α) :
    (pure a : Except String α) = Except.ok a := rfl

/-- Bind of an `Except.ok` value reduces to application. -/
theorem exceptOk_bind {α β : Type} (a : α) (f : α → Except String β) :
    (Except.ok a >>= f : Except String β) = f a := rfl

/-- Nonemptiness of a list gives a nonzero rational length. -/
theorem length_cast_ne_zero {α : Type} (l : List α) (h : ¬ l.isEmpty = true) :
    (l.length : ℚ) ≠ 0 := by
  have h0 : l ≠ [] := by simpa [List.isEmpty_iff] using h
  simpa [List.length_eq_zero] using h0

/-- A bind of `Except` values is `ok` when both sides are. -/
theorem bind_isOk {α β : Type} {e : Except String α} {f : α → Except String β}
    (he : ∃ a, e = Except.ok a) (hf : ∀ a, ∃ b, f a = Except.ok b) :
    ∃ b, (e >>= f) = Except.ok b := by
  obtain ⟨a, ha⟩ := he
  rw [ha]
  exact hf a

/-- Dependent variant of `bind_isOk` carrying a property of the bound
value. -/
theorem bind_isOkP {α β : Type} {e : Except String α} {f : α → Except String β}
    {P : α → Prop}
    (he : ∃ a, e = Except.ok a ∧ P a)
    (hf : ∀ a, P a → ∃ b, f a = Except.ok b) :
    ∃ b, (e >>= f) = Except.ok b := by
  obtain ⟨a, ha, hp⟩ := he
  rw [ha]
  exact hf a hp

/-- `mapM` over `Except` is `ok` when the function is `ok` pointwise. -/
theorem mapM_isOk {α β : Type} (f : α → Except String β) (l : List α)
    (hf : ∀ a ∈ l, ∃ b, f a = Except.ok b) :
    ∃ bs, l.mapM f = Except.ok bs := by
  induction l with
  | nil => exact ⟨[], rfl⟩
  | cons a t ih =>
    rw [List.mapM_cons]
    refine bind_isOk (hf a (by simp)) (fun b => ?_)
    refine bind_isOk (ih (fun x hx => hf x (by simp [hx]))) (fun bs => ⟨_, rfl⟩)

/-- `compute_track_oat` is total and yields a non-negative fraction. -/
theorem compute_track_oat_ok (patients : List Patient) (track : Track) :
    ∃ q, compute_track_oat patients track = Except.ok q ∧ 0 ≤ q := by
  unfold compute_track_oat
  by_cases h : (patients.filter
      (fun p => decide (p.status = .enrolled ∧ p.enrolled_track = some track))).isEmpty
  · rw [if_pos h]
    exact ⟨0, rfl, le_rfl⟩
  · rw [if_neg h]
    unfold pyDiv
    rw [if_neg (length_cast_ne_zero _ h)]
    exact ⟨_, rfl, by positivity⟩

/-- `compute_withhold_recovery` is total on non-negative OAT values. -/
theorem compute_withhold_recovery_ok (oat : ℚ) (config : SimConfig)
    (h : 0 ≤ oat) :
    ∃ r, compute_withhold_recovery oat config = Except.ok r := by
  unfold compute_withhold_recovery
  by_cases ht : config.outcome_attainment_threshold ≤ oat
  · rw [if_pos ht]
    exact ⟨1, rfl⟩
  · have hne : config.outcome_attainment_threshold ≠ 0 := by
      intro h0
      rw [h0] at ht
      exact ht h
    rw [if_neg ht]
    unfold pyDiv
    rw [if_neg hne]
    exact ⟨_, rfl⟩

/-- `compute_year_reward` is total. -/
theorem compute_year_reward_ok (patients : List Patient) (year : ℤ)
    (config : SimConfig) :
    ∃ v, compute_year_reward patients year config = Except.ok v := by
  unfold compute_year_reward
  by_cases h : (patients.filter (fun p => decide (p.status = .enrolled))).isEmpty
  · rw [if_pos h]
    exact ⟨_, rfl⟩
  · rw [if_neg h]
    refine bind_isOk (mapM_isOk _ _ (fun t _ => ?_)) (fun oat_rcv => ⟨_, rfl⟩)
    exact bind_isOkP (compute_track_oat_ok patients t) (fun q hq =>
      bind_isOk (compute_withhold_recovery_ok q config hq) (fun r => ⟨_, rfl⟩))

/-- The guarded mean of outcomes is total. -/
theorem safe_mean_outcome_ok (l : List Patient) :
    ∃ v, safe_mean_outcome l = Except.ok v := by
  unfold safe_mean_outcome
  by_cases h : l.isEmpty
  · rw [if_pos h]
    exact ⟨0, rfl⟩
  · rw [if_neg h]
    unfold pyDiv
    rw [if_neg (length_cast_ne_zero _ h)]
    exact ⟨_, rfl⟩

/-- The guarded mean of deltas is total. -/
theorem safe_mean_delta_ok (outcome_deltas : List (ℕ × ℚ)) (l : List Patient) :
    ∃ v, safe_mean_delta outcome_deltas l = Except.ok v := by
  unfold safe_mean_delta
  by_cases h : l.isEmpty
  · rw [if_pos h]
    exact ⟨0, rfl⟩
  · rw [if_neg h]
    unfold pyDiv
    rw [if_neg (length_cast_ne_zero _ h)]
    exact ⟨_, rfl⟩

/-- The guarded per-track complexity percentage is total. -/
theorem track_pct_complex_ok (l : List Patient) :
    ∃ v, track_pct_complex l = Except.ok v := by
  unfold track_pct_complex
  by_cases h : l.isEmpty
  · rw [if_pos h]
    exact ⟨0, rfl⟩
  · rw [if_neg h]
    unfold pyDiv
    rw [if_neg (length_cast_ne_zero _ h)]
    exact ⟨_, rfl⟩

/-- The guarded legacy percentage is total. -/
theorem guardedPct_ok (a b : ℕ) : ∃ v, guardedPct a b = Except.ok v := by
  unfold guardedPct
  by_cases h : b > 0
  · have hne : (b : ℚ) ≠ 0 := by
      have : b ≠ 0 := Nat.pos_iff_ne_zero.mp h
      exact_mod_cast this
    rw [if_pos h]
    unfold pyDiv
    rw [if_neg hne]
    exact ⟨_, rfl⟩
  · rw [if_neg h]
    exact ⟨0, rfl⟩

/-- `compute_yearly_metrics` is total: no input can raise. -/
theorem compute_yearly_metrics_ok (patients : List Patient) (year : ℤ)
    (outcome_deltas : List (ℕ × ℚ)) (config : SimConfig) :
    ∃ m, compute_yearly_metrics patients year outcome_deltas config =
      Except.ok m := by
  unfold compute_yearly_metrics
  refine bind_isOk (safe_mean_outcome_ok _) (fun v1 => ?_)
  refine bind_isOk (safe_mean_outcome_ok _) (fun v2 => ?_)
  refine bind_isOk (safe_mean_outcome_ok _) (fun v3 => ?_)
  refine bind_isOk (safe_mean_outcome_ok _) (fun v4 => ?_)
  refine bind_isOk (safe_mean_delta_ok _ _) (fun w1 => ?_)
  refine bind_isOk (safe_mean_delta_ok _ _) (fun w2 => ?_)
  refine bind_isOk (safe_mean_delta_ok _ _) (fun w3 => ?_)
  refine bind_isOk (safe_mean_delta_ok _ _) (fun w4 => ?_)
  refine bind_isOk (compute_year_reward_ok _ _ _) (fun rf => ?_)
  refine bind_isOkP (compute_track_oat_ok _ _) (fun q1 hq1 => ?_)
  refine bind_isOkP (compute_track_oat_ok _ _) (fun q2 hq2 => ?_)
  refine bind_isOkP (compute_track_oat_ok _ _) (fun q3 hq3 => ?_)
  refine bind_isOkP (compute_track_oat_ok _ _) (fun q4 hq4 => ?_)
  refine bind_isOk (compute_withhold_recovery_ok _ _ hq1) (fun r1 => ?_)
  refine bind_isOk (compute_withhold_recovery_ok _ _ hq2) (fun r2 => ?_)
  refine bind_isOk (compute_withhold_recovery_ok _ _ hq3) (fun r3 => ?_)
  refine bind_isOk (compute_withhold_recovery_ok _ _ hq4) (fun r4 => ?_)
  refine bind_isOk (track_pct_complex_ok _) (fun p1 => ?_)
  refine bind_isOk (track_pct_complex_ok _) (fun p2 => ?_)
  refine bind_isOk (track_pct_complex_ok _) (fun p3 => ?_)
  refine bind_isOk (track_pct_complex_ok _) (fun p4 => ?_)
  refine bind_isOk (guardedPct_ok _ _) (fun u1 => ?_)
  refine bind_isOk (guardedPct_ok _ _) (fun u2 => ?_)
  refine bind_isOk (guardedPct_ok _ _) (fun u3 => ?_)
  exact ⟨_, rfl⟩

/-- C5: `compute_track_oat` returns `0.0` (and does not raise) for a
track with no enrolled patients; `compute_year_reward` returns revenue
`0.0` with all financial components zero (and does not raise) when no
patient is enrolled; and `compute_yearly_metrics` — the whole metrics
computation — never raises a division error on any input. -/
theorem C5_empty_groups_are_safe :
    (∀ (patients : List Patient) (track : Track),
      patients.filter
        (fun p => decide (p.status = .enrolled ∧ p.enrolled_track = some track)) = [] →
      compute_track_oat patients track = Except.ok 0) ∧
    (∀ (patients : List Patient) (year : ℤ) (config : SimConfig),
      patients.filter (fun p => decide (p.status = .enrolled)) = [] →
      compute_year_reward patients year config =
        Except.ok (0, ⟨0, 0, 0, 0, [], [], []⟩)) ∧
    (∀ (patients : List Patient) (year : ℤ)
        (outcome_deltas : List (ℕ × ℚ)) (config : SimConfig),
      ∃ m, compute_yearly_metrics patients year outcome_deltas config =
        Except.ok m) := by
  refine ⟨?_, ?_, fun ps y d c => compute_yearly_metrics_ok ps y d c⟩
  · intro patients track h
    unfold compute_track_oat
    rw [if_pos (by rw [h]; rfl)]
  · intro patients year config h
    unfold compute_year_reward
    rw [if_pos (by rw [h]; rfl)]
    rfl

/-- Witness for C5 on the empty population. -/
theorem C5_witness :
    compute_track_oat [] Track.bh = Except.ok 0 ∧
    compute_year_reward [] 0 defaultSimConfig =
      Except.ok (0, ⟨0, 0, 0, 0, [], [], []⟩) :=
  ⟨C5_empty_groups_are_safe.1 [] .bh rfl,
   C5_empty_groups_are_safe.2.1 [] 0 defaultSimConfig rfl⟩

/-! ## C6 — greedy hill-climbing acceptance -/

/-- Invariant of the optimizer loop for a total evaluation function: the
run succeeds, the history grows by one entry per iteration, and the
history stays adjacent-monotone. -/
theorem optLoop_spec {σ : Type} (f : Policy → ℚ)
    (mutateFn : ℕ → Policy → σ → Policy × σ) :
    ∀ (idxs : List ℕ) (best : Policy) (bestR : ℚ) (hist : List ℚ) (s : σ),
      hist.getLast? = some bestR → hist.Chain' (· ≤ ·) →
      ∃ bestO histO sO,
        optLoop (fun p => Except.ok (f p)) mutateFn idxs best bestR hist s =
          Except.ok (bestO, histO, sO) ∧
        histO.length = hist.length + idxs.length ∧
        histO.Chain' (· ≤ ·) := by
  intro idxs
  induction idxs with
  | nil =>
    intro best bestR hist s _ hchain
    exact ⟨best, hist, s, rfl, by simp, hchain⟩
  | cons i rest ih =>
    intro best bestR hist s hlast hchain
    rcases hmut : mutateFn i best s with ⟨cand, s1⟩
    by_cases hlt : bestR < f cand
    · have hstep : optLoop (fun p => Except.ok (f p)) mutateFn (i :: rest) best bestR hist s =
          optLoop (fun p => Except.ok (f p)) mutateFn rest cand (f cand) (hist ++ [f cand]) s1 := by
        simp only [optLoop, hmut]
        rw [if_pos hlt]
      rw [hstep]
      obtain ⟨bestO, histO, sO, heq, hlen, hch⟩ := ih cand (f cand) (hist ++ [f cand]) s1
        (List.getLast?_concat hist)
        (by
          rw [List.chain'_append]
          refine ⟨hchain, List.chain'_singleton _, ?_⟩
          intro x hx y hy
          rw [hlast] at hx
          simp only [Option.mem_def, Option.some_inj] at hx
          simp only [List.head?_cons, Option.mem_def, Option.some_inj] at hy
          subst hx
          subst hy
          exact le_of_lt hlt)
      exact ⟨bestO, histO, sO, heq, by simp at hlen ⊢; omega, hch⟩
    · have hstep : optLoop (fun p => Except.ok (f p)) mutateFn (i :: rest) best bestR hist s =
          optLoop (fun p => Except.ok (f p)) mutateFn rest best bestR (hist ++ [bestR]) s1 := by
        simp only [optLoop, hmut]
        rw [if_neg hlt]
      rw [hstep]
      obtain ⟨bestO, histO, sO, heq, hlen, hch⟩ := ih best bestR (hist ++ [bestR]) s1
        (List.getLast?_concat hist)
        (by
          rw [List.chain'_append]
          refine ⟨hchain, List.chain'_singleton _, ?_⟩
          intro x hx y hy
          rw [hlast] at hx
          simp only [Option.mem_def, Option.some_inj] at hx
          simp only [List.head?_cons, Option.mem_def, Option.some_inj] at hy
          subst hx
          subst hy
          exact le_rfl)
      exact ⟨bestO, histO, sO, heq, by simp at hlen ⊢; omega, hch⟩

/-- If no candidate generated during the run strictly beats the seed
objective, the incumbent never changes. -/
theorem optLoop_seed {σ : Type} (f : Policy → ℚ)
    (mutateFn : ℕ → Policy → σ → Policy × σ) :
    ∀ (idxs : List ℕ) (p0 : Policy) (hist : List ℚ) (s : σ),
      (∀ r ∈ candTrace f mutateFn idxs p0 (f p0) s, r ≤ f p0) →
      ∃ histO sO,
        optLoop (fun p => Except.ok (f p)) mutateFn idxs p0 (f p0) hist s =
          Except.ok (p0, histO, sO) := by
  intro idxs
  induction idxs with
  | nil =>
    intro p0 hist s _
    exact ⟨hist, s, rfl⟩
  | cons i rest ih =>
    intro p0 hist s hb
    rcases hmut : mutateFn i p0 s with ⟨cand, s1⟩
    have hr : f cand ≤ f p0 := by
      refine hb (f cand) ?_
      simp [candTrace, hmut]
    have hstep : optLoop (fun p => Except.ok (f p)) mutateFn (i :: rest) p0 (f p0) hist s =
        optLoop (fun p => Except.ok (f p)) mutateFn rest p0 (f p0) (hist ++ [f p0]) s1 := by
      simp only [optLoop, hmut]
      rw [if_neg (not_lt.mpr hr)]
    rw [hstep]
    refine ih p0 (hist ++ [f p0]) s1 ?_
    intro r hrmem
    refine hb r ?_
    have htr : candTrace f mutateFn (i :: rest) p0 (f p0) s =
        f cand :: candTrace f mutateFn rest p0 (f p0) s1 := by
      simp only [candTrace, hmut]
      rw [if_neg (not_lt.mpr hr)]
    rw [htr]
    exact List.mem_cons_of_mem _ hrmem

/-- C6: `optimize_policy` with a total evaluation function succeeds; the
reward history has length `N + 1` and is monotonically non-decreasing
(the incumbent is replaced only on strict improvement); and if no
candidate generated in the `N` iterations has an objective strictly above
the seed policy's, the returned policy is the seed policy. -/
theorem C6_optimizer_greedy {σ : Type} (initial_policy : Policy)
    (f : Policy → ℚ) (num_iterations : ℕ)
    (mutateFn : ℕ → Policy → σ → Policy × σ) (s : σ) :
    ∃ best hist sO,
      optimize_policy initial_policy (fun p => Except.ok (f p)) num_iterations
          mutateFn s = Except.ok (best, hist, sO) ∧
      hist.length = num_iterations + 1 ∧
      hist.Chain' (· ≤ ·) ∧
      ((∀ r ∈ candTrace f mutateFn (List.range num_iterations) initial_policy
          (f initial_policy) s, r ≤ f initial_policy) → best = initial_policy) := by
  obtain ⟨bestO, histO, sO, heq, hlen, hchain⟩ :=
    optLoop_spec f mutateFn (List.range num_iterations) initial_policy
      (f initial_policy) [f initial_policy] s (by simp) (by simp)
  refine ⟨bestO, histO, sO, heq, ?_, hchain, ?_⟩
  · simp only [List.length_singleton, List.length_range] at hlen
    omega
  · intro hb
    obtain ⟨h2, s2, heq2⟩ := optLoop_seed f mutateFn (List.range num_iterations)
      initial_policy [f initial_policy] s hb
    rw [heq] at heq2
    injection heq2 with h
    exact congrArg Prod.fst h

/-- Witness for C6: two iterations with an identity mutation and the
constant-zero objective; no candidate beats the seed, so the seed policy
is returned. -/
theorem C6_witness :
    ∃ best hist sO,
      optimize_policy defaultPolicy (fun p => Except.ok ((fun _ => (0 : ℚ)) p)) 2
          (fun _ p s => (p, s)) () = Except.ok (best, hist, sO) ∧
      hist.length = 2 + 1 ∧
      hist.Chain' (· ≤ ·) ∧
      best = defaultPolicy := by
  obtain ⟨best, hist, sO, heq, hlen, hchain, hseed⟩ :=
    C6_optimizer_greedy defaultPolicy (fun _ => (0 : ℚ)) 2 (fun _ p s => (p, s)) ()
  refine ⟨best, hist, sO, heq, hlen, hchain, hseed ?_⟩
  intro r hr
  simp [candTrace, List.range_succ] at hr
  simp [hr]

/-! ## C7 — panel-size quota invariant -/

/-- Counting a pointwise-disjoint disjunction splits into a sum. -/
theorem countP_or_disjoint {α : Type} (l : List α) (p q : α → Bool)
    (h : ∀ a ∈ l, ¬ (p a = true ∧ q a = true)) :
    l.countP (fun a => p a || q a) = l.countP p + l.countP q := by
  induction l with
  | nil => simp
  | cons a t ih =>
    have hh := h a (List.mem_cons_self a t)
    have ht := ih (fun x hx => h x (List.mem_cons_of_mem _ hx))
    by_cases hp : p a = true
    · have hq : ¬ q a = true := fun hq => hh ⟨hp, hq⟩
      simp [List.countP_cons, hp, hq, ht]
      omega
    · by_cases hq : q a = true
      · simp [List.countP_cons, hp, hq, ht]
        omega
      · simp [List.countP_cons, hp, hq, ht]

/-- On a duplicate-free list, membership in a duplicate-free sublist `S`
is attained exactly `S.length` times. -/
theorem countP_mem_nodup (l S : List ℕ) (hl : l.Nodup) (hS : S.Nodup)
    (hsub : ∀ x ∈ S, x ∈ l) :
    l.countP (fun x => decide (x ∈ S)) = S.length := by
  induction S with
  | nil => simp
  | cons a T ih =>
    have hna : a ∉ T := (List.nodup_cons.mp hS).1
    have hT : T.Nodup := (List.nodup_cons.mp hS).2
    have hcg : l.countP (fun x => decide (x ∈ a :: T)) =
        l.countP (fun x => decide (x = a) || decide (x ∈ T)) := by
      refine List.countP_congr (fun x _ => ?_)
      simp [List.mem_cons]
    rw [hcg, countP_or_disjoint l _ _ ?hdisj]
    case hdisj =>
      intro x _ hx
      obtain ⟨h1, h2⟩ := hx
      simp only [decide_eq_true_eq] at h1 h2
      exact hna (h1 ▸ h2)
    have h1 : l.countP (fun x => decide (x = a)) = 1 := by
      have hmem : a ∈ l := hsub a (List.mem_cons_self a T)
      have hcount := List.count_eq_one_of_mem hl hmem
      rw [← hcount]
      refine List.countP_congr (fun x _ => ?_)
      simp only [decide_eq_true_eq, beq_iff_eq]
    rw [h1, ih hT (fun x hx => hsub x (List.mem_cons_of_mem _ hx))]
    simp [Nat.add_comm]

/-- The outcome loop only rewrites `current_outcome`: any projection that
ignores `current_outcome` is preserved, position by position. -/
theorem outcomeStep_map_pres {RS γ : Type} (M : RngModel RS) (config : SimConfig)
    (g : Patient → γ)
    (hg : ∀ (p : Patient) (x : ℚ), g { p with current_outcome := x } = g p) :
    ∀ (ps : List Patient) (acc : List Patient × List (ℕ × ℚ) × RS),
      ((ps.foldl (outcomeAccum M config) acc).1).map g =
        acc.1.map g ++ ps.map g := by
  intro ps
  induction ps with
  | nil => intro acc; simp
  | cons p t ih =>
    intro acc
    rw [List.foldl_cons, ih]
    unfold outcomeAccum
    rcases hd : simulate_outcome_change M p config acc.2.2 with ⟨delta, s1⟩
    simp [hd, hg]

/-- The outcome step preserves the status sequence. -/
theorem outcomeStep_map_status {RS : Type} (M : RngModel RS)
    (patients : List Patient) (config : SimConfig) (s : RS) :
    ((outcomeStep M patients config s).1).map Patient.status =
      patients.map Patient.status := by
  unfold outcomeStep
  rw [outcomeStep_map_pres M config Patient.status (fun p x => rfl) patients ([], [], s)]
  simp

/-- The outcome step preserves the id sequence. -/
theorem outcomeStep_map_id {RS : Type} (M : RngModel RS)
    (patients : List Patient) (config : SimConfig) (s : RS) :
    ((outcomeStep M patients config s).1).map Patient.id =
      patients.map Patient.id := by
  unfold outcomeStep
  rw [outcomeStep_map_pres M config Patient.id (fun p x => rfl) patients ([], [], s)]
  simp

/-- Equal status sequences give equal enrolled counts. -/
theorem enrolledCount_congr {l1 l2 : List Patient}
    (h : l1.map Patient.status = l2.map Patient.status) :
    enrolledCount l1 = enrolledCount l2 := by
  unfold enrolledCount
  have h2 := congrArg (List.countP (fun st => decide (st = PStatus.enrolled))) h
  simpa [List.countP_map, Function.comp] using h2

/-- `dropUpdate` never changes a patient's id. -/
theorem dropUpdate_id (policy : Policy) (d : List (ℕ × ℚ)) (year : ℤ)
    (p : Patient) : (dropUpdate policy d year p).id = p.id := by
  unfold dropUpdate
  split <;> rfl

/-- The drop step preserves the id sequence. -/
theorem dropStep_map_id (policy : Policy) (d : List (ℕ × ℚ)) (year : ℤ)
    (patients : List Patient) :
    (dropStep policy d year patients).map Patient.id =
      patients.map Patient.id := by
  unfold dropStep
  rw [List.map_map]
  exact List.map_congr_left (fun p _ => dropUpdate_id policy d year p)

/-- The drop step can only decrease the enrolled count. -/
theorem dropStep_enrolled_le (policy : Policy) (d : List (ℕ × ℚ)) (year : ℤ)
    (patients : List Patient) :
    enrolledCount (dropStep policy d year patients) ≤ enrolledCount patients := by
  unfold dropStep enrolledCount
  rw [List.countP_map]
  refine List.countP_mono_left (fun p hp hcond => ?_)
  simp only [Function.comp] at hcond
  by_cases hc : p.status = PStatus.enrolled ∧
      dropDecision policy (lookupD d p.id) = true
  · exfalso
    revert hcond
    unfold dropUpdate
    rw [if_pos hc]
    simp
  · revert hcond
    unfold dropUpdate
    rw [if_neg hc]
    exact id

/-- Exact enrolled count after the refill step: when there are open
slots, the enrolled count grows by the number of enrolled candidates,
`min slots (number of eligible candidates)`; otherwise it is unchanged. -/
theorem refillStep_count (patients : List Patient) (policy : Policy)
    (config : SimConfig) (year : ℤ)
    (hids : (patients.map Patient.id).Nodup) :
    (enrolledCount (refillStep patients policy config year) : ℤ) =
      if 0 < config.target_panel_size + year * config.panel_growth_per_year -
          (enrolledCount patients : ℤ) then
        (enrolledCount patients : ℤ) +
          min (config.target_panel_size + year * config.panel_growth_per_year -
              (enrolledCount patients : ℤ))
            ((patients.filter (fun p => should_enroll policy p)).length : ℤ)
      else (enrolledCount patients : ℤ) := by
  by_cases hpos : 0 < config.target_panel_size + year * config.panel_growth_per_year -
      (enrolledCount patients : ℤ)
  · rw [if_pos hpos]
    have hunfold : refillStep patients policy config year =
        patients.map (fun p =>
          if p.id ∈ (((patients.filter (fun p => should_enroll policy p)).mergeSort
              (fun a b => decide (desirability b ≤ desirability a))).take
                (config.target_panel_size + year * config.panel_growth_per_year -
                  (enrolledCount patients : ℤ)).toNat).map Patient.id
          then enrollPatient year p else p) := by
      unfold refillStep
      rw [if_pos hpos]
    set slots : ℤ := config.target_panel_size + year * config.panel_growth_per_year -
      (enrolledCount patients : ℤ) with hslots
    set cands := patients.filter (fun p => should_enroll policy p) with hcands
    set sorted := cands.mergeSort (fun a b => decide (desirability b ≤ desirability a))
      with hsorted
    set chosen := sorted.take slots.toNat with hchosen
    set S := chosen.map Patient.id with hS
    have hperm : sorted.Perm cands := List.mergeSort_perm cands _
    have hchosen_sub : ∀ c ∈ chosen, c ∈ cands := fun c hc =>
      (hperm.mem_iff).mp (List.mem_of_mem_take hc)
    have hchosen_enroll : ∀ c ∈ chosen, should_enroll policy c = true := by
      intro c hc
      exact (List.mem_filter.mp (hchosen_sub c hc)).2
    have hchosen_pat : ∀ c ∈ chosen, c ∈ patients := fun c hc =>
      (List.mem_filter.mp (hchosen_sub c hc)).1
    have hchosen_status : ∀ c ∈ chosen, c.status = PStatus.never_enrolled := by
      intro c hc
      have h := hchosen_enroll c hc
      unfold should_enroll at h
      by_cases hs : c.status ≠ PStatus.never_enrolled
      · rw [if_pos hs] at h
        exact absurd h (by simp)
      · push_neg at hs
        exact hs
    have hS_nodup : S.Nodup := by
      rw [hS, hchosen, List.map_take]
      refine List.Nodup.sublist (List.take_sublist _ _) ?_
      have hp2 : (sorted.map Patient.id).Perm (cands.map Patient.id) := hperm.map _
      rw [hp2.nodup_iff]
      exact List.Nodup.sublist (List.Sublist.map Patient.id (List.filter_sublist patients)) hids
    have hS_sub : ∀ x ∈ S, x ∈ patients.map Patient.id := by
      intro x hx
      rw [hS] at hx
      obtain ⟨c, hc, rfl⟩ := List.mem_map.mp hx
      exact List.mem_map.mpr ⟨c, hchosen_pat c hc, rfl⟩
    have hmain : enrolledCount (patients.map (fun p =>
        if p.id ∈ S then enrollPatient year p else p)) =
        S.length + enrolledCount patients := by
      unfold enrolledCount
      rw [List.countP_map]
      have hcongr : patients.countP ((fun p => decide (p.status = PStatus.enrolled)) ∘
          (fun p => if p.id ∈ S then enrollPatient year p else p)) =
          patients.countP (fun p => decide (p.id ∈ S) ||
            decide (p.status = PStatus.enrolled)) := by
        refine List.countP_congr (fun p _ => ?_)
        by_cases hin : p.id ∈ S
        · simp [Function.comp, hin, enrollPatient]
        · simp [Function.comp, hin]
      rw [hcongr, countP_or_disjoint _ _ _ ?hdisj]
      case hdisj =>
        intro p hp hcontra
        obtain ⟨h1, h2⟩ := hcontra
        simp only [decide_eq_true_eq] at h1 h2
        rw [hS] at h1
        obtain ⟨c, hc, hcid⟩ := List.mem_map.mp h1
        have hcp : c = p := List.inj_on_of_nodup_map hids (hchosen_pat c hc) hp hcid
        have hst := hchosen_status c hc
        rw [hcp] at hst
        rw [hst] at h2
        exact PStatus.noConfusion h2
      have hid_count : patients.countP (fun p => decide (p.id ∈ S)) = S.length := by
        have hmn := countP_mem_nodup (patients.map Patient.id) S hids hS_nodup hS_sub
        rw [← hmn, List.countP_map]
        rfl
      rw [hid_count]
    have hlen : S.length = min slots.toNat cands.length := by
      rw [hS, List.length_map, hchosen, List.length_take, hperm.length_eq]
    have hcast : ((min slots.toNat cands.length : ℕ) : ℤ) =
        min slots (cands.length : ℤ) := by
      rw [Nat.cast_min, Int.toNat_of_nonneg (le_of_lt hpos)]
    rw [hunfold]
    rw [hmain, hlen]
    push_cast [hcast]
    linarith [hcast]
  · rw [if_neg hpos]
    have hunfold : refillStep patients policy config year = patients := by
      unfold refillStep
      rw [if_neg hpos]
    rw [hunfold]

/-- C7: for a year `k ≥ 1` of the simulation loop — the enrolled count
entering the year being within the previous year's quota and the panel
quota growing (`panel_growth_per_year ≥ 0`, the spec's "monotonically
growing quota"), over a population with distinct ids — after the
panel-refill step the enrolled count is at most the year's quota
`target_panel_size + year * panel_growth_per_year`, and it equals the
quota whenever the never-enrolled individuals satisfying the policy's
enrollment criteria cover the shortfall left after the drop step. -/
theorem C7_panel_quota {RS : Type} (M : RngModel RS) (patients : List Patient)
    (policy : Policy) (config : SimConfig) (year : ℤ) (s : RS)
    (hids : (patients.map Patient.id).Nodup)
    (hgrow : 0 ≤ config.panel_growth_per_year)
    (hyear : 1 ≤ year)
    (hpre : (enrolledCount patients : ℤ) ≤
      config.target_panel_size + (year - 1) * config.panel_growth_per_year) :
    ((enrolledCount (run_single_year M patients policy config year s).1 : ℤ) ≤
        config.target_panel_size + year * config.panel_growth_per_year) ∧
    ((config.target_panel_size + year * config.panel_growth_per_year -
        (enrolledCount (dropStep policy (outcomeStep M patients config s).2.1 year
          (outcomeStep M patients config s).1) : ℤ)) ≤
      (((dropStep policy (outcomeStep M patients config s).2.1 year
          (outcomeStep M patients config s).1).filter
        (fun p => should_enroll policy p)).length : ℤ) →
      (enrolledCount (run_single_year M patients policy config year s).1 : ℤ) =
        config.target_panel_size + year * config.panel_growth_per_year) := by
  set afterDrop := dropStep policy (outcomeStep M patients config s).2.1 year
    (outcomeStep M patients config s).1 with hAD
  have hrun : (run_single_year M patients policy config year s).1 =
      refillStep afterDrop policy config year := rfl
  have hidsAD : (afterDrop.map Patient.id).Nodup := by
    rw [hAD, dropStep_map_id, outcomeStep_map_id]
    exact hids
  have hcnt_out : enrolledCount (outcomeStep M patients config s).1 =
      enrolledCount patients :=
    enrolledCount_congr (outcomeStep_map_status M patients config s)
  have hcnt_le : enrolledCount afterDrop ≤ enrolledCount patients := by
    rw [hAD]
    exact le_trans (dropStep_enrolled_le policy _ year _) (le_of_eq hcnt_out)
  have hquota_mono : config.target_panel_size +
      (year - 1) * config.panel_growth_per_year ≤
      config.target_panel_size + year * config.panel_growth_per_year := by
    have h1 : ((year : ℤ) - 1) * config.panel_growth_per_year ≤
        year * config.panel_growth_per_year :=
      mul_le_mul_of_nonneg_right (by linarith) hgrow
    linarith
  have hpre2 : (enrolledCount afterDrop : ℤ) ≤
      config.target_panel_size + year * config.panel_growth_per_year := by
    have hle : (enrolledCount afterDrop : ℤ) ≤ (enrolledCount patients : ℤ) := by
      exact_mod_cast hcnt_le
    linarith
  have hcnt := refillStep_count afterDrop policy config year hidsAD
  rw [hrun]
  by_cases hpos : 0 < config.target_panel_size + year * config.panel_growth_per_year -
      (enrolledCount afterDrop : ℤ)
  · rw [if_pos hpos] at hcnt
    constructor
    · rw [hcnt]
      have hm := min_le_left
        (config.target_panel_size + year * config.panel_growth_per_year -
          (enrolledCount afterDrop : ℤ))
        ((afterDrop.filter (fun p => should_enroll policy p)).length : ℤ)
      linarith
    · intro hcand
      rw [hcnt]
      rw [min_eq_left hcand]
      ring
  · rw [if_neg hpos] at hcnt
    push_neg at hpos
    have heq : (enrolledCount afterDrop : ℤ) =
        config.target_panel_size + year * config.panel_growth_per_year :=
      le_antisymm hpre2 (by linarith)
    exact ⟨by rw [hcnt]; exact le_of_eq heq, fun _ => by rw [hcnt]; exact heq⟩

/-- A one-person population and a quota of one panel slot, for the C7
witness. -/
def cfgC7 : SimConfig :=
  { defaultSimConfig with
      target_panel_size := 1
      panel_growth_per_year := 0 }

/-- An eligible never-enrolled patient (BH-track eligible). -/
def pC7 : Patient := { testPatient with eligible_tracks := [Track.bh] }

/-- Witness for C7: one eligible never-enrolled patient, quota 1 — after
the refill step of year 1 the panel is exactly at quota. -/
theorem C7_witness :
    ((enrolledCount (run_single_year unitRng [pC7] defaultPolicy cfgC7 1 ()).1 : ℤ) ≤
        cfgC7.target_panel_size + 1 * cfgC7.panel_growth_per_year) ∧
    (enrolledCount (run_single_year unitRng [pC7] defaultPolicy cfgC7 1 ()).1 : ℤ) =
        cfgC7.target_panel_size + 1 * cfgC7.panel_growth_per_year := by
  have h := C7_panel_quota unitRng [pC7] defaultPolicy cfgC7 1 ()
    (by decide) (by decide) (by decide) (by decide)
  refine ⟨h.1, h.2 ?_⟩
  have h1 : outcomeStep unitRng [pC7] cfgC7 () =
      ([{ pC7 with current_outcome := -(1/100) }], [(0, -(1/100))], ()) := by
    norm_num [outcomeStep, outcomeAccum, simulate_outcome_change, pC7,
      testPatient, cfgC7, defaultSimConfig, unitRng, npClip, min_def, max_def]
    all_goals first | rfl | decide
  have h2 : dropStep defaultPolicy [(0, -(1/100))] 1
      [{ pC7 with current_outcome := -(1/100) }] =
      [{ pC7 with current_outcome := -(1/100) }] := by
    norm_num [dropStep, dropUpdate, dropDecision, lookupD, List.lookup, pC7,
      testPatient, defaultPolicy]
    all_goals first | rfl | decide
  have h3 : should_enroll defaultPolicy { pC7 with current_outcome := -(1/100) } = true := by
    norm_num [should_enroll, get_eligible_tracks, pC7, testPatient, defaultPolicy]
  rw [h1]
  simp only []
  rw [h2]
  have h4 : List.filter (fun p => should_enroll defaultPolicy p)
      [{ pC7 with current_outcome := -(1/100) }] =
      [{ pC7 with current_outcome := -(1/100) }] := by
    simp only [List.filter_cons, List.filter_nil, h3]
    simp
  have h5 : enrolledCount [{ pC7 with current_outcome := -(1/100) }] = 0 := by
    simp [enrolledCount, pC7, testPatient]
  rw [h4, h5]
  simp [cfgC7, defaultSimConfig]

/-! ## C8 — determinism of `run_simulation` -/

/-- C8: `run_simulation` is a deterministic function of the random
source model, the configuration (including the integer seed, from which
every random stream is derived), the initial policy and the optimization
setting: two invocations with identical inputs produce identical yearly
metrics sequences, identical final policies and identical optimized
policies. -/
theorem C8_run_simulation_deterministic {RS : Type} (M : RngModel RS)
    (c1 c2 : SimConfig) (p1 p2 : Option Policy) (b1 b2 : Option Bool)
    (hc : c1 = c2) (hp : p1 = p2) (hb : b1 = b2) :
    run_simulation M c1 p1 b1 = run_simulation M c2 p2 b2 := by
  subst hc
  subst hp
  subst hb
  rfl

/-- Witness for C8 at a concrete random model and the default
configuration. -/
theorem C8_witness :
    run_simulation unitRng defaultSimConfig none none =
      run_simulation unitRng defaultSimConfig none none :=
  C8_run_simulation_deterministic unitRng defaultSimConfig defaultSimConfig
    none none none none rfl rfl rfl

end AccessSim
